import Mathlib

/-!
Shallow embedding of the OpenRouter model-selection core
(`src/openrouter_client/models.py` and `src/openrouter_client/client.py`).

Decimal-string pricing fields are modelled by the rational value they parse
to (`float(...)` in the source); Python `Optional` fields are `Option`;
Python truthiness of optional lists/bools is made explicit via
`optListTruthy` / `optBoolTruthy`.  The stateful client (`_models_cache`)
is modelled by explicit state passing: the one network call made inside
`fetch_models` is a parameter `fetch : Except FetchError (List ModelMetadata)`
(its outcome), and each operation reports how many fetches it performed.
-/

namespace OpenRouterLab

/-- Python truthiness of an `Optional[List[...]]` value: `None` and the
empty list are falsy, a non-empty list is truthy. -/
def optListTruthy (o : Option (List String)) : Bool :=
  match o with
  | none => false
  | some l => !l.isEmpty

/-- Python truthiness of an `Optional[bool]` value: `None` is falsy. -/
def optBoolTruthy (o : Option Bool) : Bool :=
  match o with
  | none => false
  | some b => b

/-- `models.Architecture`: input/output modalities and tokenizer. -/
structure Architecture where
  input_modalities : List String
  output_modalities : List String
  tokenizer : Option String
deriving DecidableEq

/-- `models.TopProvider`: moderation flag of the top provider. -/
structure TopProvider where
  is_moderated : Bool
deriving DecidableEq

/-- `models.Pricing`: per-token costs.  The source stores decimal strings and
parses them with `float(...)` at each use; we model each field by its parsed
numeric value.  Field `request` is the per-request cost. -/
structure Pricing where
  prompt : ℚ
  completion : ℚ
  image : ℚ
  request : ℚ
  input_cache_read : ℚ
  input_cache_write : ℚ
  web_search : ℚ
  internal_reasoning : ℚ
deriving DecidableEq

/-- `models.ModelMetadata`: one catalog entry.  `per_request_limits` is an
opaque `Optional[Dict[str, Any]]` never read by the client code and is
omitted from the embedding. -/
structure ModelMetadata where
  id : String
  name : String
  created : Int
  description : String
  architecture : Architecture
  top_provider : TopProvider
  pricing : Pricing
  context_length : Int
  hugging_face_id : Option String
  supported_parameters : List String
deriving DecidableEq

/-- `models.ModelRequirements`: selection criteria.  Pydantic defaults:
`prefer_unmoderated = False`, `force_refresh = True`, everything else
`None`. -/
structure ModelRequirements where
  max_cost_per_token : Option ℚ
  min_context_length : Option Int
  required_features : Option (List String)
  input_modalities : Option (List String)
  output_modalities : Option (List String)
  prefer_unmoderated : Option Bool
  force_refresh : Option Bool
  exclude_models : Option (List String)
deriving DecidableEq

/-- The exclusion check of `client._model_meets_requirements`
(`if requirements.exclude_models and model.id in requirements.exclude_models`). -/
def checkExcluded (m : ModelMetadata) (r : ModelRequirements) : Bool :=
  !(optListTruthy r.exclude_models && decide (m.id ∈ r.exclude_models.getD []))

/-- The cost check of `client._model_meets_requirements`
(`if requirements.max_cost_per_token is not None`, fail when the average of
prompt and completion cost exceeds the bound). -/
def checkCost (m : ModelMetadata) (r : ModelRequirements) : Bool :=
  match r.max_cost_per_token with
  | none => true
  | some c => !decide ((m.pricing.prompt + m.pricing.completion) / 2 > c)

/-- The context-length check of `client._model_meets_requirements`
(`if requirements.min_context_length is not None`, fail when
`model.context_length < requirements.min_context_length`). -/
def checkContextLength (m : ModelMetadata) (r : ModelRequirements) : Bool :=
  match r.min_context_length with
  | none => true
  | some l => !decide (m.context_length < l)

/-- The required-features check of `client._model_meets_requirements`
(`if requirements.required_features`, fail unless all features appear in
`model.supported_parameters`). -/
def checkFeatures (m : ModelMetadata) (r : ModelRequirements) : Bool :=
  if optListTruthy r.required_features then
    (r.required_features.getD []).all fun f => decide (f ∈ m.supported_parameters)
  else true

/-- The input-modality check of `client._model_meets_requirements`. -/
def checkInputModalities (m : ModelMetadata) (r : ModelRequirements) : Bool :=
  if optListTruthy r.input_modalities then
    (r.input_modalities.getD []).all fun x => decide (x ∈ m.architecture.input_modalities)
  else true

/-- The output-modality check of `client._model_meets_requirements`. -/
def checkOutputModalities (m : ModelMetadata) (r : ModelRequirements) : Bool :=
  if optListTruthy r.output_modalities then
    (r.output_modalities.getD []).all fun x => decide (x ∈ m.architecture.output_modalities)
  else true

/-- The moderation check of `client._model_meets_requirements`
(`if requirements.prefer_unmoderated is not None`, fail when
`requirements.prefer_unmoderated and model.top_provider.is_moderated`). -/
def checkModeration (m : ModelMetadata) (r : ModelRequirements) : Bool :=
  match r.prefer_unmoderated with
  | none => true
  | some b => !(b && m.top_provider.is_moderated)

/-- `client.OpenRouterClient._model_meets_requirements`: the early-return
chain of checks, as their conjunction. -/
def model_meets_requirements (m : ModelMetadata) (r : ModelRequirements) : Bool :=
  checkExcluded m r && checkCost m r && checkContextLength m r &&
  checkFeatures m r && checkInputModalities m r && checkOutputModalities m r &&
  checkModeration m r

/-- `client.OpenRouterClient._filter_models`: keep, in order, the models
meeting the requirements. -/
def filter_models (models : List ModelMetadata) (r : ModelRequirements) :
    List ModelMetadata :=
  models.filter fun m => model_meets_requirements m r

/-- The ranking key of `select_model` / `select_models`:
`float(m.pricing.prompt) + float(m.pricing.completion)` (the sum). -/
def costKey (m : ModelMetadata) : ℚ :=
  m.pricing.prompt + m.pricing.completion

/-- Comparison on the ranking key, as used by the stable sort. -/
def costLE (a b : ModelMetadata) : Bool :=
  decide (costKey a ≤ costKey b)

/-- Python's `sorted(..., key=...)` is a stable ascending sort; modelled by
`List.mergeSort`, which is stable. -/
def sortByCost (ms : List ModelMetadata) : List ModelMetadata :=
  ms.mergeSort costLE

/-- The selection logic of `client.OpenRouterClient.select_model` after the
catalog has been obtained: filter, return `none` when nothing passes,
otherwise the first element of the cost-sorted survivors. -/
def select_model_core (models : List ModelMetadata) (r : ModelRequirements) :
    Option ModelMetadata :=
  let filtered := filter_models models r
  if filtered.isEmpty then none
  else (sortByCost filtered).head?

/-- The selection logic of `client.OpenRouterClient.select_models` after the
catalog has been obtained: filter, sort by cost, truncate to `limit` when
`limit > 0`, otherwise return everything. -/
def select_models_core (models : List ModelMetadata) (r : ModelRequirements)
    (limit : Int) : List ModelMetadata :=
  let sorted := sortByCost (filter_models models r)
  if limit > 0 then sorted.take limit.toNat else sorted

/-- Errors `fetch_models` can raise: `requests.RequestException` (transport)
or `ValueError` (parse/validation). -/
inductive FetchError where
  | transport
  | parse
deriving DecidableEq

/-- The mutable state of an `OpenRouterClient`: `self._models_cache`. -/
structure ClientState where
  models_cache : Option (List ModelMetadata)
deriving DecidableEq

/-- Result of a stateful client operation: the returned value or raised
error, the client state afterwards, and how many network fetches were
performed (0 or 1). -/
structure FetchOutcome (α : Type) where
  result : Except FetchError α
  state : ClientState
  fetchCount : Nat

/-- `client.OpenRouterClient.fetch_models`: return the cache when present
and `force_refresh` is false; otherwise perform the fetch, caching the data
on success and leaving the cache untouched on error. -/
def fetch_models (st : ClientState) (force_refresh : Bool)
    (fetch : Except FetchError (List ModelMetadata)) :
    FetchOutcome (List ModelMetadata) :=
  match st.models_cache, force_refresh with
  | some cache, false => ⟨.ok cache, st, 0⟩
  | _, _ =>
    match fetch with
    | .ok data => ⟨.ok data, ⟨some data⟩, 1⟩
    | .error e => ⟨.error e, st, 1⟩

/-- `client.OpenRouterClient.clear_cache`: drop the snapshot. -/
def clear_cache (_st : ClientState) : ClientState :=
  ⟨none⟩

/-- `client.OpenRouterClient.select_model`: fetch the catalog passing
`force_refresh=requirements.force_refresh`, then select; a fetch error
propagates. -/
def select_model (st : ClientState) (r : ModelRequirements)
    (fetch : Except FetchError (List ModelMetadata)) :
    FetchOutcome (Option ModelMetadata) :=
  let fo := fetch_models st (optBoolTruthy r.force_refresh) fetch
  match fo.result with
  | .ok models => ⟨.ok (select_model_core models r), fo.state, fo.fetchCount⟩
  | .error e => ⟨.error e, fo.state, fo.fetchCount⟩

/-- `client.OpenRouterClient.select_models`: the source calls
`self.fetch_models()` with its default `force_refresh=False`, not
`requirements.force_refresh`; then filters, sorts and truncates. -/
def select_models (st : ClientState) (r : ModelRequirements) (limit : Int)
    (fetch : Except FetchError (List ModelMetadata)) :
    FetchOutcome (List ModelMetadata) :=
  let fo := fetch_models st false fetch
  match fo.result with
  | .ok models => ⟨.ok (select_models_core models r limit), fo.state, fo.fetchCount⟩
  | .error e => ⟨.error e, fo.state, fo.fetchCount⟩

/-- The filtering predicate in the words of the specification (§4.3): used
to state that the code's predicate refines it. -/
def meetsRequirementsSpec (m : ModelMetadata) (r : ModelRequirements) : Prop :=
  (∀ l, r.exclude_models = some l → m.id ∉ l) ∧
  (∀ c, r.max_cost_per_token = some c →
    (m.pricing.prompt + m.pricing.completion) / 2 ≤ c) ∧
  (∀ l, r.min_context_length = some l → l ≤ m.context_length) ∧
  (∀ fs, r.required_features = some fs → ∀ f ∈ fs, f ∈ m.supported_parameters) ∧
  (∀ ms, r.input_modalities = some ms → ∀ x ∈ ms, x ∈ m.architecture.input_modalities) ∧
  (∀ ms, r.output_modalities = some ms → ∀ x ∈ ms, x ∈ m.architecture.output_modalities) ∧
  (r.prefer_unmoderated = some true → m.top_provider.is_moderated = false)

/-- A `ModelRequirements` value with every pydantic default
(`prefer_unmoderated=False`, `force_refresh=True`, all else `None`). -/
def defaultRequirements : ModelRequirements :=
  { max_cost_per_token := none
    min_context_length := none
    required_features := none
    input_modalities := none
    output_modalities := none
    prefer_unmoderated := some false
    force_refresh := some true
    exclude_models := none }

/-- Default requirements except `force_refresh=False`. -/
def noRefreshRequirements : ModelRequirements :=
  { defaultRequirements with force_refresh := some false }

/-- A minimal concrete catalog record with the given id, prompt and
completion costs and moderation flag. -/
def mkModel (id : String) (prompt completion : ℚ) (moderated : Bool) :
    ModelMetadata :=
  { id := id
    name := id
    created := 0
    description := ""
    architecture :=
      { input_modalities := ["text"], output_modalities := ["text"], tokenizer := none }
    top_provider := { is_moderated := moderated }
    pricing :=
      { prompt := prompt, completion := completion, image := 0, request := 0
        input_cache_read := 0, input_cache_write := 0, web_search := 0
        internal_reasoning := 0 }
    context_length := 4096
    hugging_face_id := none
    supported_parameters := ["temperature"] }

/-- Concrete record `A` with summed cost 1. -/
def recA : ModelMetadata := mkModel "A" 1 0 false

/-- Concrete record `B` with summed cost 2. -/
def recB : ModelMetadata := mkModel "B" 2 0 false

/-- Concrete record `C` with summed cost 3. -/
def recC : ModelMetadata := mkModel "C" 3 0 false

/-- Concrete record with zero cost. -/
def recFree : ModelMetadata := mkModel "F" 0 0 false

/-- The exclusion check passes exactly when the id avoids any configured
exclusion list. -/
theorem checkExcluded_iff (m : ModelMetadata) (r : ModelRequirements) :
    checkExcluded m r = true ↔ ∀ l, r.exclude_models = some l → m.id ∉ l := by
  cases h : r.exclude_models with
  | none => simp [checkExcluded, optListTruthy, h]
  | some l =>
    cases l with
    | nil => simp [checkExcluded, optListTruthy, h]
    | cons a as => simp [checkExcluded, optListTruthy, h]

/-- The cost check passes exactly when any configured bound dominates the
average of prompt and completion cost. -/
theorem checkCost_iff (m : ModelMetadata) (r : ModelRequirements) :
    checkCost m r = true ↔
      ∀ c, r.max_cost_per_token = some c →
        (m.pricing.prompt + m.pricing.completion) / 2 ≤ c := by
  cases h : r.max_cost_per_token with
  | none => simp [checkCost, h]
  | some c => simp [checkCost, h, not_lt]

/-- The context-length check passes exactly when any configured minimum is
at most the model's context length. -/
theorem checkContextLength_iff (m : ModelMetadata) (r : ModelRequirements) :
    checkContextLength m r = true ↔
      ∀ l, r.min_context_length = some l → l ≤ m.context_length := by
  cases h : r.min_context_length with
  | none => simp [checkContextLength, h]
  | some l => simp [checkContextLength, h, not_lt]

/-- The feature check passes exactly when every required feature is
supported. -/
theorem checkFeatures_iff (m : ModelMetadata) (r : ModelRequirements) :
    checkFeatures m r = true ↔
      ∀ fs, r.required_features = some fs → ∀ f ∈ fs, f ∈ m.supported_parameters := by
  cases h : r.required_features with
  | none => simp [checkFeatures, optListTruthy, h]
  | some fs =>
    cases fs with
    | nil => simp [checkFeatures, optListTruthy, h]
    | cons a as => simp [checkFeatures, optListTruthy, h, List.all_eq_true]

/-- The input-modality check passes exactly when every required input
modality is offered. -/
theorem checkInputModalities_iff (m : ModelMetadata) (r : ModelRequirements) :
    checkInputModalities m r = true ↔
      ∀ ms, r.input_modalities = some ms → ∀ x ∈ ms, x ∈ m.architecture.input_modalities := by
  cases h : r.input_modalities with
  | none => simp [checkInputModalities, optListTruthy, h]
  | some ms =>
    cases ms with
    | nil => simp [checkInputModalities, optListTruthy, h]
    | cons a as => simp [checkInputModalities, optListTruthy, h, List.all_eq_true]

/-- The output-modality check passes exactly when every required output
modality is offered. -/
theorem checkOutputModalities_iff (m : ModelMetadata) (r : ModelRequirements) :
    checkOutputModalities m r = true ↔
      ∀ ms, r.output_modalities = some ms → ∀ x ∈ ms, x ∈ m.architecture.output_modalities := by
  cases h : r.output_modalities with
  | none => simp [checkOutputModalities, optListTruthy, h]
  | some ms =>
    cases ms with
    | nil => simp [checkOutputModalities, optListTruthy, h]
    | cons a as => simp [checkOutputModalities, optListTruthy, h, List.all_eq_true]

/-- The moderation check passes exactly when `prefer_unmoderated=true`
implies the model is unmoderated. -/
theorem checkModeration_iff (m : ModelMetadata) (r : ModelRequirements) :
    checkModeration m r = true ↔
      (r.prefer_unmoderated = some true → m.top_provider.is_moderated = false) := by
  cases h : r.prefer_unmoderated with
  | none => simp [checkModeration, h]
  | some b => cases b <;> simp [checkModeration, h]

/-- The code's pass/fail predicate coincides with the specification's
filtering predicate. -/
theorem model_meets_requirements_iff (m : ModelMetadata) (r : ModelRequirements) :
    model_meets_requirements m r = true ↔ meetsRequirementsSpec m r := by
  unfold model_meets_requirements meetsRequirementsSpec
  rw [Bool.and_eq_true, Bool.and_eq_true, Bool.and_eq_true, Bool.and_eq_true,
    Bool.and_eq_true, Bool.and_eq_true]
  rw [checkExcluded_iff, checkCost_iff, checkContextLength_iff, checkFeatures_iff,
    checkInputModalities_iff, checkOutputModalities_iff, checkModeration_iff]
  tauto

/-- The cost comparison is transitive. -/
theorem costLE_trans (a b c : ModelMetadata)
    (hab : costLE a b = true) (hbc : costLE b c = true) : costLE a c = true := by
  simp only [costLE, decide_eq_true_eq] at *
  exact le_trans hab hbc

/-- The cost comparison is total. -/
theorem costLE_total (a b : ModelMetadata) : costLE a b || costLE b a := by
  simp only [costLE, Bool.or_eq_true, decide_eq_true_eq]
  exact le_total _ _

/-- Sorting permutes the input. -/
theorem sortByCost_perm (l : List ModelMetadata) : (sortByCost l).Perm l :=
  List.mergeSort_perm l costLE

/-- The sorted output is ascending in the summed cost. -/
theorem sortByCost_sorted (l : List ModelMetadata) :
    (sortByCost l).Pairwise fun a b => costKey a ≤ costKey b := by
  have h := List.sorted_mergeSort costLE_trans costLE_total l
  exact h.imp fun hab => by simpa [costLE] using hab

/-- An already-sorted list is left unchanged. -/
theorem sortByCost_of_sorted (l : List ModelMetadata)
    (h : l.Pairwise fun a b => costLE a b = true) : sortByCost l = l :=
  List.mergeSort_of_sorted h

/-- Stability: the records carrying any fixed summed cost appear in the
sorted output in exactly the order they had in the input. -/
theorem sortByCost_stable (l : List ModelMetadata) (k : ℚ) :
    (sortByCost l).filter (fun m => decide (costKey m = k)) =
      l.filter (fun m => decide (costKey m = k)) := by
  have hpair : (l.filter (fun m => decide (costKey m = k))).Pairwise
      fun a b => costLE a b = true := by
    refine List.pairwise_of_forall_mem_list ?_
    intro a ha b hb
    have ha' : costKey a = k := by
      have := (List.mem_filter.mp ha).2
      simpa using this
    have hb' : costKey b = k := by
      have := (List.mem_filter.mp hb).2
      simpa using this
    simp [costLE, ha', hb']
  have h1 : List.Sublist (l.filter (fun m => decide (costKey m = k))) (sortByCost l) :=
    List.sublist_mergeSort costLE_trans costLE_total hpair (List.filter_sublist l)
  have h2 : List.Sublist
      ((l.filter (fun m => decide (costKey m = k))).filter
        (fun m => decide (costKey m = k)))
      ((sortByCost l).filter (fun m => decide (costKey m = k))) :=
    h1.filter _
  rw [List.filter_filter] at h2
  simp only [Bool.and_self] at h2
  have hlen : ((sortByCost l).filter (fun m => decide (costKey m = k))).length =
      (l.filter (fun m => decide (costKey m = k))).length :=
    ((sortByCost_perm l).filter _).length_eq
  exact (h2.eq_of_length hlen.symm).symm

/-- C1: a record appears in the filtered output iff it is a catalog record
satisfying all the specification's conditions: id not excluded, average of
prompt and completion cost within any configured bound, context length at
least any configured minimum, all required features supported, all required
input/output modalities offered, and unmoderated when
`prefer_unmoderated=true`. -/
theorem filter_models_mem_iff (models : List ModelMetadata) (r : ModelRequirements)
    (m : ModelMetadata) :
    m ∈ filter_models models r ↔ m ∈ models ∧ meetsRequirementsSpec m r := by
  simp [filter_models, List.mem_filter, model_meets_requirements_iff]

/-- C2: ranking sorts the filtered sequence ascending by the summed cost
`promptCost + completionCost` (a permutation, pairwise ascending), records
of equal summed cost keep their relative order (stable sort), and on the
concrete catalog A, B, C with summed costs 1, 2, 3, `select_models` with
`limit = 2` returns `[A, B]` in that order. -/
theorem rank_by_summed_cost_stable (l : List ModelMetadata) :
    (sortByCost l).Perm l ∧
    ((sortByCost l).Pairwise fun a b => costKey a ≤ costKey b) ∧
    (∀ k : ℚ, (sortByCost l).filter (fun m => decide (costKey m = k)) =
      l.filter (fun m => decide (costKey m = k))) ∧
    select_models_core [recA, recB, recC] defaultRequirements 2 = [recA, recB] := by
  refine ⟨sortByCost_perm l, sortByCost_sorted l, sortByCost_stable l, ?_⟩
  have hf : filter_models [recA, recB, recC] defaultRequirements = [recA, recB, recC] := by
    decide
  have hs : sortByCost [recA, recB, recC] = [recA, recB, recC] := by
    apply sortByCost_of_sorted
    norm_num [List.pairwise_cons, costLE, costKey, recA, recB, recC, mkModel]
  simp [select_models_core, hf, hs]

/-- C7: when the filtered sequence is empty, `select_model`'s selection
returns `none` (a normal value, not an error); when it is non-empty, it
returns the first element of the cost-ranked sequence. -/
theorem select_model_core_none_or_first (models : List ModelMetadata)
    (r : ModelRequirements) :
    (filter_models models r = [] → select_model_core models r = none) ∧
    (filter_models models r ≠ [] →
      ∃ m rest, sortByCost (filter_models models r) = m :: rest ∧
        select_model_core models r = some m) := by
  constructor
  · intro h
    simp [select_model_core, h]
  · intro h
    have hlen : (sortByCost (filter_models models r)).length =
        (filter_models models r).length := (sortByCost_perm _).length_eq
    cases hs : sortByCost (filter_models models r) with
    | nil =>
      rw [hs] at hlen
      exact absurd (List.length_eq_zero.mp hlen.symm) h
    | cons m rest =>
      refine ⟨m, rest, rfl, ?_⟩
      simp [select_model_core, h, hs]

/-- Witness for C7 at concrete inputs: the empty catalog yields `none`, a
one-record catalog yields the head of its ranked sequence. -/
theorem select_model_core_none_or_first_witness :
    select_model_core [] defaultRequirements = none ∧
    (∃ m rest, sortByCost (filter_models [recA] defaultRequirements) = m :: rest ∧
      select_model_core [recA] defaultRequirements = some m) :=
  ⟨(select_model_core_none_or_first [] defaultRequirements).1 rfl,
   (select_model_core_none_or_first [recA] defaultRequirements).2 (by decide)⟩

/-- C8: `select_models`' selection returns the first `limit` elements of the
ranked sequence when `limit > 0` (so at most `limit` records), and the whole
ranked sequence without truncation when `limit ≤ 0`. -/
theorem select_models_limit_truncation (models : List ModelMetadata)
    (r : ModelRequirements) (limit : Int) :
    (0 < limit →
      select_models_core models r limit =
        (sortByCost (filter_models models r)).take limit.toNat ∧
      (select_models_core models r limit).length ≤ limit.toNat) ∧
    (limit ≤ 0 →
      select_models_core models r limit = sortByCost (filter_models models r)) := by
  constructor
  · intro h
    refine ⟨by simp [select_models_core, h], ?_⟩
    simp only [select_models_core, h, if_pos]
    exact List.length_take_le _ _
  · intro h
    simp [select_models_core, not_lt.mpr h]

/-- Witness for C8 at concrete inputs: `limit = 1` truncates, `limit = -1`
returns everything. -/
theorem select_models_limit_truncation_witness :
    (select_models_core [recA] defaultRequirements 1 =
        (sortByCost (filter_models [recA] defaultRequirements)).take ((1 : Int)).toNat ∧
      (select_models_core [recA] defaultRequirements 1).length ≤ ((1 : Int)).toNat) ∧
    select_models_core [recA] defaultRequirements (-1) =
      sortByCost (filter_models [recA] defaultRequirements) :=
  ⟨(select_models_limit_truncation [recA] defaultRequirements 1).1 (by norm_num),
   (select_models_limit_truncation [recA] defaultRequirements (-1)).2 (by norm_num)⟩

/-- C9: the filtered sequence is an order-preserving subsequence of the
catalog (so every output record is an input record, kept in relative order),
and no record occurs more often in the output than in the input. -/
theorem filter_models_sublist_of_catalog (models : List ModelMetadata)
    (r : ModelRequirements) :
    List.Sublist (filter_models models r) models ∧
    ∀ m, (filter_models models r).count m ≤ models.count m := by
  refine ⟨List.filter_sublist models, fun m => ?_⟩
  exact (List.filter_sublist models).count_le m

/-- C5: when `fetch_models` actually performs a fetch (empty cache or
forced refresh) and the fetch fails, the error is propagated and the cached
snapshot is left unchanged; on success the snapshot is replaced wholesale by
the fetched data (never merged). -/
theorem fetch_models_error_preserves_cache (st : ClientState) (force : Bool)
    (e : FetchError) (d : List ModelMetadata)
    (h : st.models_cache = none ∨ force = true) :
    fetch_models st force (.error e) = ⟨.error e, st, 1⟩ ∧
    fetch_models st force (.ok d) = ⟨.ok d, ⟨some d⟩, 1⟩ := by
  obtain ⟨c⟩ := st
  rcases h with h | h
  · simp only at h
    subst h
    exact ⟨rfl, rfl⟩
  · subst h
    cases c <;> exact ⟨rfl, rfl⟩

/-- Witness for C5 at a concrete input: an empty cache with a failing
transport, then with a successful fetch. -/
theorem fetch_models_error_preserves_cache_witness :
    fetch_models ⟨none⟩ false (.error .transport) = ⟨.error .transport, ⟨none⟩, 1⟩ ∧
    fetch_models ⟨none⟩ false (.ok [recA]) = ⟨.ok [recA], ⟨some [recA]⟩, 1⟩ :=
  fetch_models_error_preserves_cache ⟨none⟩ false .transport [recA] (Or.inl rfl)

/-- C6: `fetch_models` fetches exactly when the snapshot is absent or
`force_refresh` is true; a present snapshot with `force_refresh = false` is
returned unchanged with no fetch; and after `clear_cache` the next call
performs exactly one fetch regardless of `force_refresh`. -/
theorem fetch_models_cache_policy (st : ClientState) (force : Bool)
    (fetch : Except FetchError (List ModelMetadata)) :
    ((fetch_models st force fetch).fetchCount =
      if st.models_cache.isSome && !force then 0 else 1) ∧
    (∀ cache, st.models_cache = some cache → force = false →
      fetch_models st force fetch = ⟨.ok cache, st, 0⟩) ∧
    (∀ st₀ : ClientState, (fetch_models (clear_cache st₀) force fetch).fetchCount = 1) := by
  obtain ⟨c⟩ := st
  refine ⟨?_, ?_, ?_⟩
  · cases c <;> cases force <;> cases fetch <;> rfl
  · intro cache hc hf
    simp only at hc
    subst hc
    subst hf
    rfl
  · intro st₀
    cases force <;> cases fetch <;> rfl

/-- Witness for C6 at a concrete input: a cache hit returns the snapshot
with no fetch. -/
theorem fetch_models_cache_policy_witness :
    fetch_models ⟨some [recA]⟩ false (.ok [recB]) = ⟨.ok [recA], ⟨some [recA]⟩, 0⟩ :=
  (fetch_models_cache_policy ⟨some [recA]⟩ false (.ok [recB])).2.1 [recA] rfl rfl

/-- C3 counterexample: with a cached snapshot `[A]` and the default
requirements (whose `force_refresh` is truthy), `select_models` performs no
fetch and selects from the cached snapshot, while `select_model` on the same
state performs a fetch — so `select_models` does not pass
`requirements.force_refresh` to the cache-aware fetch. -/
theorem select_models_ignores_force_refresh_cex :
    optBoolTruthy defaultRequirements.force_refresh = true ∧
    (select_models ⟨some [recA]⟩ defaultRequirements 5 (.ok [recB])).fetchCount = 0 ∧
    (select_models ⟨some [recA]⟩ defaultRequirements 5 (.ok [recB])).result =
      .ok (select_models_core [recA] defaultRequirements 5) ∧
    (select_model ⟨some [recA]⟩ defaultRequirements (.ok [recB])).fetchCount = 1 :=
  ⟨rfl, rfl, rfl, rfl⟩

/-- C3 amended: `select_model` passes `requirements.force_refresh` to the
cache-aware fetch, but `select_models` calls the fetch with its default
`force_refresh = false`: whenever a snapshot is cached, `select_models`
selects from it with no fetch regardless of `requirements.force_refresh`,
while `select_model` with truthy `force_refresh` performs a fetch. -/
theorem select_models_uses_cached_snapshot (st : ClientState)
    (r : ModelRequirements) (limit : Int)
    (fetch : Except FetchError (List ModelMetadata))
    (cache : List ModelMetadata) (h : st.models_cache = some cache) :
    select_models st r limit fetch =
      ⟨.ok (select_models_core cache r limit), st, 0⟩ ∧
    (optBoolTruthy r.force_refresh = true →
      (select_model st r fetch).fetchCount = 1) := by
  obtain ⟨c⟩ := st
  simp only at h
  subst h
  constructor
  · rfl
  · intro hf
    unfold select_model
    rw [hf]
    cases fetch <;> rfl

/-- Witness for the amended C3 at a concrete input. -/
theorem select_models_uses_cached_snapshot_witness :
    select_models ⟨some [recA]⟩ defaultRequirements 5 (.ok [recB]) =
      ⟨.ok (select_models_core [recA] defaultRequirements 5), ⟨some [recA]⟩, 0⟩ ∧
    (select_model ⟨some [recA]⟩ defaultRequirements (.ok [recB])).fetchCount = 1 := by
  have h := select_models_uses_cached_snapshot ⟨some [recA]⟩ defaultRequirements 5
    (.ok [recB]) [recA] rfl
  exact ⟨h.1, h.2 rfl⟩

/-- C4 counterexample: with the default requirements (`force_refresh=True`),
a second identical `select_model` call performs one additional fetch, not
zero. -/
theorem select_model_repeat_triggers_fetch_cex :
    defaultRequirements.force_refresh = some true ∧
    (select_model (select_model ⟨none⟩ defaultRequirements (.ok [recA])).state
      defaultRequirements (.ok [recA])).fetchCount = 1 :=
  ⟨rfl, rfl⟩

/-- C4 amended: when `requirements.force_refresh` is not truthy and the
first `select_model` call leaves a populated cache (its fetch succeeded or a
snapshot already existed), a second call with the same requirements returns
the same result, leaves the state unchanged, and performs no fetch. -/
theorem select_model_idempotent_no_refresh (st : ClientState)
    (r : ModelRequirements) (f1 f2 : Except FetchError (List ModelMetadata))
    (hfr : optBoolTruthy r.force_refresh = false)
    (hcache : (select_model st r f1).state.models_cache ≠ none) :
    (select_model (select_model st r f1).state r f2).result =
      (select_model st r f1).result ∧
    (select_model (select_model st r f1).state r f2).state =
      (select_model st r f1).state ∧
    (select_model (select_model st r f1).state r f2).fetchCount = 0 := by
  obtain ⟨c⟩ := st
  cases c with
  | some cache =>
    have h1 : select_model ⟨some cache⟩ r f1 =
        ⟨.ok (select_model_core cache r), ⟨some cache⟩, 0⟩ := by
      unfold select_model
      rw [hfr]
      rfl
    have h2 : select_model ⟨some cache⟩ r f2 =
        ⟨.ok (select_model_core cache r), ⟨some cache⟩, 0⟩ := by
      unfold select_model
      rw [hfr]
      rfl
    rw [h1, h2]
    exact ⟨rfl, rfl, rfl⟩
  | none =>
    cases f1 with
    | ok d =>
      have h1 : select_model ⟨none⟩ r (.ok d) =
          ⟨.ok (select_model_core d r), ⟨some d⟩, 1⟩ := by
        unfold select_model
        rw [hfr]
        rfl
      have h2 : select_model ⟨some d⟩ r f2 =
          ⟨.ok (select_model_core d r), ⟨some d⟩, 0⟩ := by
        unfold select_model
        rw [hfr]
        rfl
      rw [h1, h2]
      exact ⟨rfl, rfl, rfl⟩
    | error e =>
      have h1 : select_model ⟨none⟩ r (.error e) = ⟨.error e, ⟨none⟩, 1⟩ := by
        unfold select_model
        rw [hfr]
        rfl
      rw [h1] at hcache
      exact absurd rfl hcache

/-- Witness for the amended C4 at a concrete input: a populated cache and
`force_refresh=False`. -/
theorem select_model_idempotent_no_refresh_witness :
    (select_model (select_model ⟨some [recB]⟩ noRefreshRequirements (.ok [recA])).state
      noRefreshRequirements (.ok [recA])).fetchCount = 0 :=
  (select_model_idempotent_no_refresh ⟨some [recB]⟩ noRefreshRequirements
    (.ok [recA]) (.ok [recA]) rfl (by decide)).2.2

/-- C10: `max_cost_per_token = 0` is a real constraint: any record passing
the filter then has average prompt/completion cost at most 0; for any
configured bound the cost check passes exactly when the average is within
it; and only the absence of the field (`none`) leaves cost unconstrained. -/
theorem max_cost_zero_is_real_constraint (models : List ModelMetadata)
    (m : ModelMetadata) (r : ModelRequirements) :
    (r.max_cost_per_token = some 0 → m ∈ filter_models models r →
      (m.pricing.prompt + m.pricing.completion) / 2 ≤ 0) ∧
    (∀ c, r.max_cost_per_token = some c →
      (checkCost m r = true ↔ (m.pricing.prompt + m.pricing.completion) / 2 ≤ c)) ∧
    (r.max_cost_per_token = none → checkCost m r = true) := by
  refine ⟨?_, ?_, ?_⟩
  · intro h0 hm
    have hmem : model_meets_requirements m r = true := by
      simpa using (List.mem_filter.mp hm).2
    have hspec := (model_meets_requirements_iff m r).mp hmem
    exact hspec.2.1 0 h0
  · intro c hc
    simp [checkCost, hc, not_lt]
  · intro hc
    simp [checkCost, hc]

/-- Witness for C10 at concrete inputs: a free record passes the filter
under a zero cost bound and its average cost is at most 0, and with no bound
the cost check passes. -/
theorem max_cost_zero_is_real_constraint_witness :
    (recFree.pricing.prompt + recFree.pricing.completion) / 2 ≤ 0 ∧
    checkCost recA defaultRequirements = true :=
  ⟨(max_cost_zero_is_real_constraint [recFree] recFree
      { defaultRequirements with max_cost_per_token := some 0 }).1 rfl
      (by
        norm_num [filter_models, List.mem_filter, model_meets_requirements,
          checkExcluded, checkCost, checkContextLength, checkFeatures,
          checkInputModalities, checkOutputModalities, checkModeration,
          optListTruthy, defaultRequirements, recFree, mkModel]),
   (max_cost_zero_is_real_constraint [] recA defaultRequirements).2.2 rfl⟩

end OpenRouterLab
